import Mathlib

/-!
Verification development for the snippetbox web application.

The Go request pipeline is shallowly embedded: each handler is a pure
function from its inputs (decoded form, store results, template cache,
request data) to the list of observable effects it performs, in order
(log writes, response header/status/body writes, session mutations,
store calls).  External collaborators (the SQL store, the session
backend, the form decoder) enter as explicit parameters carrying their
results, exactly at the call sites the Go code consults them.
-/

namespace Snippetbox

/-- Observable effects a handler can perform, in program order. -/
inductive Effect where
  | logInfo (msg : String)
  | logError (msg : String)
  | setHeader (name value : String)
  | writeHeader (status : Nat)
  | write (body : String)
  | sessionLoad
  | sessionCommit
  | sessionPut (key value : String)
  | sessionRemove (key : String)
  | storeInsert (title content : String) (expires : Int)
  | storeGet (id : Int)
  | userInsert (name email : String)
  deriving Repr, DecidableEq

/-- Go's http.StatusText for the codes this application uses. -/
def statusText : Nat → String
  | 400 => "Bad Request"
  | 404 => "Not Found"
  | 405 => "Method Not Allowed"
  | 422 => "Unprocessable Entity"
  | 500 => "Internal Server Error"
  | _ => ""

/-- helpers.go clientError: http.Error writes the status then the text
plus a trailing newline. -/
def clientErrorEffects (status : Nat) : List Effect :=
  [Effect.writeHeader status, Effect.write (statusText status ++ "\n")]

/-- helpers.go serverError: log the trace, then a generic 500. -/
def serverErrorEffects (trace : String) : List Effect :=
  Effect.logError trace :: clientErrorEffects 500

/-- helpers.go notFound: clientError with 404. -/
def notFoundEffects : List Effect :=
  clientErrorEffects 404

/-- http.Redirect: set the Location header, then write the status (no
body for non-GET requests). -/
def redirectEffects (url : String) (status : Nat) : List Effect :=
  [Effect.setHeader "Location" url, Effect.writeHeader status]

/-- The committed response status: the first WriteHeader wins (later
calls are superfluous no-ops in net/http). -/
def responseStatus (effs : List Effect) : Option Nat :=
  effs.findSome? fun e =>
    match e with
    | .writeHeader s => some s
    | _ => none

/-- Snippet record (internal/models/snippets.go); times are UTC instants
modelled as naturals. -/
structure Snippet where
  ID : Int
  Title : String
  Content : String
  Created : Nat
  Expires : Nat
  deriving Repr, DecidableEq

/-- Modelled from the spec: the internal/validator package is not under
src.  A form's validation result is a field-keyed, ordered list of
messages; the record is valid iff the list is empty (spec section 3,
Form Record, and section 4.4). -/
structure Validator where
  fieldErrors : List (String × String) := []
  deriving Repr, DecidableEq

/-- Modelled from the spec: AddFieldError appends a field-keyed
message. -/
def Validator.addFieldError (v : Validator) (key message : String) : Validator :=
  { v with fieldErrors := v.fieldErrors ++ [(key, message)] }

/-- Modelled from the spec: CheckField appends the message under the key
when the check failed, rather than aborting on first failure. -/
def Validator.checkField (v : Validator) (ok : Bool) (key message : String) : Validator :=
  if ok then v else v.addFieldError key message

/-- Modelled from the spec: a record is valid iff its field-error
mapping is empty after all checks run. -/
def Validator.valid (v : Validator) : Bool :=
  v.fieldErrors.isEmpty

/-- Whitespace characters for trimming. -/
def isSpaceChar (c : Char) : Bool :=
  c == ' ' || c == '\t' || c == '\n' || c == '\r'

/-- Trim leading and trailing whitespace from a character list. -/
def trimChars (cs : List Char) : List Char :=
  ((cs.dropWhile isSpaceChar).reverse.dropWhile isSpaceChar).reverse

/-- Split a character list on a separator character. -/
def splitChars (sep : Char) : List Char → List (List Char)
  | [] => [[]]
  | c :: cs =>
    match splitChars sep cs with
    | [] => if c == sep then [[], []] else [[c]]
    | cur :: rest => if c == sep then [] :: cur :: rest else (c :: cur) :: rest

/-- Modelled from the spec: the not-blank check (value nonempty after
trimming whitespace). -/
def notBlank (value : String) : Bool :=
  trimChars value.data ≠ []

/-- Modelled from the spec: the max-length check, counting characters. -/
def maxChars (value : String) (n : Nat) : Bool :=
  value.length ≤ n

/-- Modelled from the spec: the min-length check, counting characters. -/
def minChars (value : String) (n : Nat) : Bool :=
  n ≤ value.length

/-- Modelled from the spec: the membership-in-set check for permitted
integer values. -/
def permittedInt (value : Int) (permitted : List Int) : Bool :=
  permitted.contains value

/-- Modelled from the spec: the pattern-match check used for email
addresses (nonempty local part, an at sign, nonempty domain containing
a dot). -/
def emailMatches (value : String) : Bool :=
  match splitChars '@' value.data with
  | [localPart, domain] =>
    localPart ≠ [] && (splitChars '.' domain).all (· ≠ []) &&
      2 ≤ (splitChars '.' domain).length
  | _ => false

/-- handlers.go snippetCreateForm. -/
structure snippetCreateForm where
  Title : String := ""
  Content : String := ""
  Expires : Int := 0
  validator : Validator := {}
  deriving Repr, DecidableEq

/-- handlers.go userSignupForm. -/
structure userSignupForm where
  Name : String := ""
  Email : String := ""
  Password : String := ""
  validator : Validator := {}
  deriving Repr, DecidableEq

/-- The dynamically typed Form field of templateData. -/
inductive FormData where
  | empty
  | snippetCreate (f : snippetCreateForm)
  | userSignup (f : userSignupForm)
  deriving Repr, DecidableEq

/-- templates.go templateData: the data handed to template execution. -/
structure TemplateData where
  currentYear : Int := 0
  snippet : Option Snippet := none
  snippets : List Snippet := []
  form : FormData := .empty
  flash : String := ""
  isAuthenticated : Bool := false
  csrfToken : String := ""
  deriving Repr, DecidableEq

/-- Outcome of executing a compiled template into a writer: either the
complete output, or an error after some bytes were already produced. -/
inductive ExecResult where
  | ok (out : String)
  | err (written msg : String)
  deriving Repr, DecidableEq

/-- A compiled template set: executing its base template against data
yields output or fails partway. -/
structure Template where
  exec : TemplateData → ExecResult

/-- The template cache: page name to compiled template set. -/
abbrev TemplateCache := String → Option Template

/-- helpers.go render: look the page up in the cache (missing entry is a
server error), execute the template into a fresh buffer, and only on
complete success write the status line and flush the buffer. -/
def render (cache : TemplateCache) (status : Nat) (page : String)
    (data : TemplateData) : List Effect :=
  match cache page with
  | none => serverErrorEffects ("the template " ++ page ++ " does not exist")
  | some ts =>
    match ts.exec data with
    | .err _ msg => serverErrorEffects msg
    | .ok out => [Effect.writeHeader status, Effect.write out]

/-- Accumulate the value of a nonempty run of decimal digits; any other
character is a parse error. -/
def decDigitsAux : Nat → List Char → Option Nat
  | acc, [] => some acc
  | acc, c :: cs =>
    if c.isDigit then decDigitsAux (10 * acc + (c.toNat - 48)) cs else none

/-- Value of a nonempty all-digit character list, none otherwise. -/
def decDigits : List Char → Option Nat
  | [] => none
  | cs => decDigitsAux 0 cs

/-- Go strconv.Atoi on a 64-bit platform: optional sign, at least one
digit, and a range error outside the int64 bounds. -/
def atoi (s : String) : Option Int :=
  let signed : Option Int :=
    match s.data with
    | '+' :: rest => (decDigits rest).map (fun n => (n : Int))
    | '-' :: rest => (decDigits rest).map (fun n => -(n : Int))
    | cs => (decDigits cs).map (fun n => (n : Int))
  signed.bind fun v =>
    if v < -(2 ^ 63) ∨ 2 ^ 63 - 1 < v then none else some v

/-- Errors a SnippetModel.Get call can yield: models.ErrNoRecord or any
other database error. -/
inductive GetError where
  | noRecord
  | other (msg : String)
  deriving Repr, DecidableEq

/-- internal/models/snippets.go Get: the query

  SELECT id, title, content, created, expires FROM snippets
  WHERE expires > UTC_TIMESTAMP() AND id = ?

over a table of rows; QueryRow yields the first matching row, and
sql.ErrNoRows becomes ErrNoRecord. -/
def SnippetModelGet (db : List Snippet) (now : Nat) (id : Int) :
    Except GetError Snippet :=
  match db.find? (fun s => decide (now < s.Expires ∧ s.ID = id)) with
  | none => .error .noRecord
  | some s => .ok s

/-- handlers.go snippetView: parse the :id parameter; a parse error or
an id below 1 is a 404; otherwise consult the store, mapping ErrNoRecord
to 404, other errors to 500, and success to a 200 render. -/
def snippetView (idParam : String) (getResult : Int → Except GetError Snippet)
    (cache : TemplateCache) (baseData : TemplateData) : List Effect :=
  match atoi idParam with
  | none => notFoundEffects
  | some id =>
    if id < 1 then notFoundEffects
    else
      Effect.storeGet id ::
      match getResult id with
      | .error .noRecord => notFoundEffects
      | .error (.other msg) => serverErrorEffects msg
      | .ok s => render cache 200 "view.tmpl" { baseData with snippet := some s }

/-- handlers.go snippetCreatePost validation: the four CheckField calls,
in source order, all executed unconditionally. -/
def validateSnippetCreate (form : snippetCreateForm) : snippetCreateForm :=
  let v := form.validator
  let v := v.checkField (notBlank form.Title) "title" "This field cannot be blank"
  let v := v.checkField (maxChars form.Title 100) "title"
    "This field cannot be more than 100 characters long"
  let v := v.checkField (notBlank form.Content) "content" "This field cannot be blank"
  let v := v.checkField (permittedInt form.Expires [1, 7, 365]) "expires"
    "This field must equal 1, 7 or 365"
  { form with validator := v }

/-- handlers.go snippetCreatePost.  The decode steps (decodePostForm and
the duplicated formDecoder.Decode call, both answered with a 400 on
failure) are summarised by the decoded parameter; the store's answer to
Insert enters as insertResult, consulted only at the Insert call site. -/
def snippetCreatePost (decoded : Option snippetCreateForm)
    (insertResult : Except String Int) (cache : TemplateCache)
    (baseData : TemplateData) : List Effect :=
  match decoded with
  | none => clientErrorEffects 400
  | some form0 =>
    let form := validateSnippetCreate form0
    if ¬ form.validator.valid then
      render cache 422 "create.tmpl" { baseData with form := .snippetCreate form }
    else
      Effect.storeInsert form.Title form.Content form.Expires ::
      match insertResult with
      | .error msg => serverErrorEffects msg
      | .ok id =>
        Effect.sessionPut "flash" "Snippet successfully created!" ::
        redirectEffects ("/snippet/view/" ++ toString id) 303

/-- Outcome of UserModel.Insert: success, models.ErrDuplicateEmail, or
any other error. -/
inductive UserInsertResult where
  | ok
  | duplicateEmail
  | otherError (msg : String)
  deriving Repr, DecidableEq

/-- handlers.go userSignupPost validation: the five CheckField calls in
source order. -/
def validateUserSignup (form : userSignupForm) : userSignupForm :=
  let v := form.validator
  let v := v.checkField (notBlank form.Name) "name" "This field cannot be blank"
  let v := v.checkField (notBlank form.Email) "email" "This field cannot be blank"
  let v := v.checkField (emailMatches form.Email) "email"
    "This field must be a valid email address"
  let v := v.checkField (notBlank form.Password) "password" "This field cannot be blank"
  let v := v.checkField (minChars form.Password 8) "password"
    "This field must be at least 8 characters long"
  { form with validator := v }

/-- handlers.go userSignupPost, faithfully including the missing return
after the duplicate-email branch: the error branches do not return, so
control falls through to the flash Put and the redirect in every case
where validation passed. -/
def userSignupPost (decoded : Option userSignupForm)
    (insertResult : UserInsertResult) (cache : TemplateCache)
    (baseData : TemplateData) : List Effect :=
  match decoded with
  | none => clientErrorEffects 400
  | some form0 =>
    let form := validateUserSignup form0
    if ¬ form.validator.valid then
      render cache 422 "signup.tmpl" { baseData with form := .userSignup form }
    else
      Effect.userInsert form.Name form.Email ::
      ((match insertResult with
        | .duplicateEmail =>
          let form2 := { form with
            validator := form.validator.addFieldError "email"
              "Email address is already in use" }
          render cache 422 "signup.tmpl" { baseData with form := .userSignup form2 }
        | .otherError msg => serverErrorEffects msg
        | .ok => []) ++
       (Effect.sessionPut "flash" "Your signup was succesful. Please log in" ::
        redirectEffects "/user/login" 303))

/-- Application state visible to request handling: the template cache
plus the mutable collaborators (session data and the store's insert
log). -/
structure AppState where
  templateCache : TemplateCache
  sessionData : List (String × String) := []
  insertLog : List (String × String × Int) := []

/-- How each effect acts on application state: session effects edit the
session, store inserts extend the insert log, and no effect touches the
template cache. -/
def applyEffect (st : AppState) : Effect → AppState
  | .sessionPut k v => { st with sessionData := (k, v) :: st.sessionData }
  | .sessionRemove k => { st with sessionData := st.sessionData.filter (fun p => p.1 != k) }
  | .storeInsert t c e => { st with insertLog := st.insertLog ++ [(t, c, e)] }
  | _ => st

/-- Run a request's effect list against the application state. -/
def runEffects (st : AppState) (effs : List Effect) : AppState :=
  effs.foldl applyEffect st

/-- The request-scoped data the interceptor chain consults: method and
path, the submitted CSRF token, the session-bound CSRF secret, the
session's stored user id, whether that user still exists in the Store,
and the derived authentication flag. -/
structure Request where
  method : String
  path : String
  submittedCsrf : Option String
  sessionCsrf : String
  sessionUserID : Option Int
  userExists : Bool
  isAuthenticated : Bool := false

/-- Result of running a handler: its effects in order, plus a panic it
may have raised (propagated outward until recovered). -/
structure HResult where
  effects : List Effect
  panicMsg : Option String := none

/-- A handler maps the request to its observable result. -/
abbrev Handler := Request → HResult

/-- A middleware wraps a handler. -/
abbrev Middleware := Handler → Handler

/-- Modelled from the spec: middleware.go is not under src.
secureHeaders unconditionally sets security-related response headers
before dispatch (spec section 4.1). -/
def secureHeaders (next : Handler) : Handler := fun req =>
  let r := next req
  { r with effects :=
      Effect.setHeader "Content-Security-Policy" "default-src self" ::
      Effect.setHeader "Referrer-Policy" "origin-when-cross-origin" ::
      Effect.setHeader "X-Content-Type-Options" "nosniff" ::
      Effect.setHeader "X-Frame-Options" "deny" ::
      Effect.setHeader "X-XSS-Protection" "0" :: r.effects }

/-- Modelled from the spec: middleware.go is not under src.  logRequest
records method and URL before dispatch; pure side effect, never
errors (spec section 4.1). -/
def logRequest (next : Handler) : Handler := fun req =>
  let r := next req
  { r with effects := Effect.logInfo (req.method ++ " " ++ req.path) :: r.effects }

/-- Modelled from the spec: middleware.go is not under src.
recoverPanic catches any panic from downstream, logs it, writes a
generic 500 and marks the connection for closure (spec section 4.1). -/
def recoverPanic (next : Handler) : Handler := fun req =>
  let r := next req
  match r.panicMsg with
  | none => r
  | some msg =>
    { effects := r.effects ++ Effect.setHeader "Connection" "close" ::
        serverErrorEffects msg,
      panicMsg := none }

/-- Modelled from the spec: the session middleware referenced from
routes.go loads session data before the inner chain and persists it
after the inner chain returns; a panic propagates outward before the
persist can run (spec section 4.1). -/
def sessionLoadAndSave (next : Handler) : Handler := fun req =>
  let r := next req
  match r.panicMsg with
  | some msg => { effects := Effect.sessionLoad :: r.effects, panicMsg := some msg }
  | none =>
    { effects := Effect.sessionLoad :: (r.effects ++ [Effect.sessionCommit]),
      panicMsg := none }

/-- HTTP methods the CSRF guard treats as safe. -/
def safeMethod (m : String) : Bool :=
  m == "GET" || m == "HEAD" || m == "OPTIONS" || m == "TRACE"

/-- Modelled from the spec: the CSRF guard referenced from routes.go.
For state-changing methods it compares the submitted token against the
session-bound secret; mismatch or absence short-circuits with a 400 and
never invokes the inner handler (spec section 4.1). -/
def noSurf (next : Handler) : Handler := fun req =>
  if safeMethod req.method then next req
  else if req.submittedCsrf = some req.sessionCsrf then next req
  else { effects := clientErrorEffects 400, panicMsg := none }

/-- Modelled from the spec: middleware.go is not under src.
authenticate reads an optional user id from the session, confirms the
user still exists, sets the authentication context on success, clears
the stale session entry otherwise, and never aborts the request (spec
section 4.1). -/
def authenticate (next : Handler) : Handler := fun req =>
  match req.sessionUserID with
  | none => next req
  | some _ =>
    if req.userExists then next { req with isAuthenticated := true }
    else
      let r := next { req with sessionUserID := none }
      { r with effects := Effect.sessionRemove "authenticatedUserID" :: r.effects }

/-- Modelled from the spec: middleware.go is not under src.
requireAuthentication stores the requested path for post-login redirect
and redirects unauthenticated requests to the login route,
short-circuiting before the handler executes (spec section 4.1). -/
def requireAuthentication (next : Handler) : Handler := fun req =>
  if req.isAuthenticated then next req
  else
    { effects := Effect.sessionPut "redirectPathAfterLogin" req.path ::
        redirectEffects "/user/login" 303,
      panicMsg := none }

/-- A middleware chain in the style of justinas/alice: an ordered list
of constructors. -/
structure AliceChain where
  ms : List Middleware

/-- alice.New. -/
def aliceNew (ms : List Middleware) : AliceChain := ⟨ms⟩

/-- alice Chain.Then: the first constructor in the list becomes the
outermost wrapper, New(m1, m2, m3).Then(h) = m1(m2(m3(h))). -/
def AliceChain.thenH (c : AliceChain) (h : Handler) : Handler :=
  c.ms.foldr (fun m acc => m acc) h

/-- alice Chain.Append: extends the chain with further constructors at
the inner end. -/
def AliceChain.appendMs (c : AliceChain) (ms : List Middleware) : AliceChain :=
  ⟨c.ms ++ ms⟩

/-- The terminal handlers routes() wires up. -/
structure AppHandlers where
  home : Handler
  snippetView : Handler
  userSignup : Handler
  userSignupPost : Handler
  userLogin : Handler
  userLoginPost : Handler
  snippetCreate : Handler
  snippetCreatePost : Handler
  userLogoutPost : Handler
  ping : Handler
  staticFiles : Handler

/-- One row of the route table: method, path pattern, wrapped handler. -/
structure RouteEntry where
  method : String
  pattern : String
  handler : Handler

/-- routes.go: the dynamic chain. -/
def dynamicChain : AliceChain := aliceNew [sessionLoadAndSave, noSurf, authenticate]

/-- routes.go: the protected chain appends requireAuthentication to
the dynamic chain. -/
def protectedChain : AliceChain := dynamicChain.appendMs [requireAuthentication]

/-- routes.go: the standard chain applied to every route. -/
def standardChain : AliceChain := aliceNew [recoverPanic, logRequest, secureHeaders]

/-- routes.go: the registered routes, in registration order, each
wrapped in its chain. -/
def routes (hs : AppHandlers) : List RouteEntry :=
  [ ⟨"GET", "/static/*filepath", hs.staticFiles⟩,
    ⟨"GET", "/ping", hs.ping⟩,
    ⟨"GET", "/", dynamicChain.thenH hs.home⟩,
    ⟨"GET", "/snippet/view/:id", dynamicChain.thenH hs.snippetView⟩,
    ⟨"GET", "/user/signup", dynamicChain.thenH hs.userSignup⟩,
    ⟨"POST", "/user/signup", dynamicChain.thenH hs.userSignupPost⟩,
    ⟨"GET", "/user/login", dynamicChain.thenH hs.userLogin⟩,
    ⟨"POST", "/user/login", dynamicChain.thenH hs.userLoginPost⟩,
    ⟨"GET", "/snippet/create", protectedChain.thenH hs.snippetCreate⟩,
    ⟨"POST", "/snippet/create", protectedChain.thenH hs.snippetCreatePost⟩,
    ⟨"POST", "/user/logout", protectedChain.thenH hs.userLogoutPost⟩ ]

/-- Router path matching (httprouter): exact match, with the named
segment and catch-all patterns this application registers. -/
def patternMatches (pat path : String) : Bool :=
  if pat == "/static/*filepath" then path.startsWith "/static/"
  else if pat == "/snippet/view/:id" then path.startsWith "/snippet/view/"
  else pat == path

/-- Router dispatch: find the matching route, otherwise the custom
not-found handler installed in routes.go. -/
def dispatch (table : List RouteEntry) : Handler := fun req =>
  match table.find? (fun e => e.method == req.method && patternMatches e.pattern req.path) with
  | some e => e.handler req
  | none => { effects := notFoundEffects, panicMsg := none }

/-- routes.go: the composed application handler,
standard.Then(router). -/
def appHandler (hs : AppHandlers) : Handler :=
  standardChain.thenH (dispatch (routes hs))

/-- Number of occurrences of an effect in an effect list. -/
def countEff (e : Effect) : List Effect → Nat
  | [] => 0
  | x :: xs => (if x = e then 1 else 0) + countEff e xs

/-- A concrete one-page cache whose signup template always renders. -/
def signupCache : TemplateCache := fun page =>
  if page = "signup.tmpl" then some ⟨fun _ => .ok "SIGNUP PAGE"⟩ else none

/-- A duplicate-email signup submission run against the embedded
handler: fields pass validation, the store answers
ErrDuplicateEmail. -/
def dupSignupRun : List Effect :=
  userSignupPost
    (some { Name := "Alice", Email := "alice@example.com", Password := "password123" })
    .duplicateEmail signupCache {}

/-- Terminal handlers that do nothing, for exercising the chains. -/
def trivialHandlers : AppHandlers :=
  ⟨fun _ => ⟨[], none⟩, fun _ => ⟨[], none⟩, fun _ => ⟨[], none⟩,
   fun _ => ⟨[], none⟩, fun _ => ⟨[], none⟩, fun _ => ⟨[], none⟩,
   fun _ => ⟨[], none⟩, fun _ => ⟨[], none⟩, fun _ => ⟨[], none⟩,
   fun _ => ⟨[], none⟩, fun _ => ⟨[], none⟩⟩

/-- A POST request carrying no CSRF token for a session whose secret is
set. -/
def csrfMissingReq : Request :=
  { method := "POST", path := "/user/signup", submittedCsrf := none,
    sessionCsrf := "secret", sessionUserID := none, userExists := false }

/-- A render call either produces the generic server error response or
commits the requested status followed by the complete buffer. -/
lemma render_cases (cache : TemplateCache) (status : Nat) (page : String)
    (data : TemplateData) :
    (∃ msg, render cache status page data = serverErrorEffects msg) ∨
    (∃ out, render cache status page data = [Effect.writeHeader status, Effect.write out]) := by
  cases hc : cache page with
  | none =>
    exact Or.inl ⟨"the template " ++ page ++ " does not exist", by simp [render, hc]⟩
  | some ts =>
    cases he : ts.exec data with
    | err written msg => exact Or.inl ⟨msg, by simp [render, hc, he]⟩
    | ok out => exact Or.inr ⟨out, by simp [render, hc, he]⟩

/-- Render never performs a store call or a session mutation. -/
lemma render_only_writes (cache : TemplateCache) (status : Nat) (page : String)
    (data : TemplateData) :
    (∀ t c e, Effect.storeInsert t c e ∉ render cache status page data) ∧
    (∀ i, Effect.storeGet i ∉ render cache status page data) ∧
    (∀ n m, Effect.userInsert n m ∉ render cache status page data) := by
  rcases render_cases cache status page data with ⟨msg, hm⟩ | ⟨out, hm⟩ <;>
    rw [hm] <;>
    simp [serverErrorEffects, clientErrorEffects]

/-- C1: for every call render(w, status, page, data), a page name absent
from the template cache or a template-execution error yields exactly the
generic 500 response, with no byte of template output written to the
connection; the given status line and the buffer contents are written
only when the template executed into the buffer completely and without
error. -/
theorem render_commits_only_after_complete_execution
    (cache : TemplateCache) (status : Nat) (page : String) (data : TemplateData) :
    (cache page = none →
      render cache status page data =
        serverErrorEffects ("the template " ++ page ++ " does not exist") ∧
      responseStatus (render cache status page data) = some 500) ∧
    (∀ ts, cache page = some ts →
      (∀ written msg, ts.exec data = .err written msg →
        render cache status page data = serverErrorEffects msg ∧
        responseStatus (render cache status page data) = some 500 ∧
        ∀ b, Effect.write b ∈ render cache status page data →
          b = "Internal Server Error\n") ∧
      (∀ out, ts.exec data = .ok out →
        render cache status page data =
          [Effect.writeHeader status, Effect.write out])) := by
  constructor
  · intro h
    constructor
    · simp [render, h]
    · simp [render, h, responseStatus, serverErrorEffects, clientErrorEffects]
  · intro ts h
    constructor
    · intro written msg hexec
      refine ⟨?_, ?_, ?_⟩
      · simp [render, h, hexec]
      · simp [render, h, hexec, responseStatus, serverErrorEffects, clientErrorEffects]
      · intro b hb
        rw [show render cache status page data = serverErrorEffects msg by
          simp [render, h, hexec]] at hb
        rw [show serverErrorEffects msg =
          [Effect.logError msg, Effect.writeHeader 500,
           Effect.write "Internal Server Error\n"] from rfl] at hb
        simp at hb
        exact hb
    · intro out hexec
      simp [render, h, hexec]

/-- Witness for C1 at a concrete empty cache. -/
theorem render_commits_only_after_complete_execution_witness :
    render (fun _ => none) 200 "home.tmpl" {} =
      serverErrorEffects "the template home.tmpl does not exist" :=
  ((render_commits_only_after_complete_execution (fun _ => none) 200 "home.tmpl" {}).1 rfl).1

/-- C8: Get returns ErrNoRecord for every id whose matching records
have all expired at the query time, and returns a record only when that
record is present with a strictly future expiry. -/
theorem snippet_get_excludes_expired (db : List Snippet) (now : Nat) (id : Int) :
    ((∀ s ∈ db, s.ID = id → s.Expires ≤ now) →
      SnippetModelGet db now id = .error .noRecord) ∧
    (∀ s, SnippetModelGet db now id = .ok s →
      s ∈ db ∧ s.ID = id ∧ now < s.Expires) := by
  constructor
  · intro hall
    unfold SnippetModelGet
    rw [List.find?_eq_none.mpr]
    intro s hs
    simp only [decide_eq_true_eq, not_and]
    intro hlt hid
    exact absurd (hall s hs hid) (by omega)
  · intro s hok
    unfold SnippetModelGet at hok
    cases hf : db.find? (fun s => decide (now < s.Expires ∧ s.ID = id)) with
    | none => rw [hf] at hok; cases hok
    | some t =>
      rw [hf] at hok
      cases hok
      have hmem := List.mem_of_find?_eq_some hf
      have hp := List.find?_some hf
      simp only [decide_eq_true_eq] at hp
      exact ⟨hmem, hp.2, hp.1⟩

/-- Witness for C8: a store still physically holding snippet 1, whose
expiry 50 is before the query time 100, answers Get(1) with
ErrNoRecord. -/
theorem snippet_get_excludes_expired_witness :
    SnippetModelGet [{ ID := 1, Title := "t", Content := "c", Created := 10, Expires := 50 }] 100 1 =
      .error .noRecord :=
  (snippet_get_excludes_expired
      [{ ID := 1, Title := "t", Content := "c", Created := 10, Expires := 50 }] 100 1).1
    (by
      intro s hs _
      simp only [List.mem_singleton] at hs
      subst hs
      decide)

/-- C5: all four snippet-create checks run regardless of earlier
failures, each failing check appends its message under its field key,
the form is valid iff the field-error mapping is empty, and an invalid
submission is answered by the single 422 re-render carrying the full
accumulated error list. -/
theorem snippet_create_validation_accumulates_all
    (form : snippetCreateForm) (ins : Except String Int)
    (cache : TemplateCache) (base : TemplateData) :
    (validateSnippetCreate form).validator.fieldErrors =
      form.validator.fieldErrors ++
      ((if notBlank form.Title then [] else [("title", "This field cannot be blank")]) ++
       (if maxChars form.Title 100 then [] else
         [("title", "This field cannot be more than 100 characters long")]) ++
       (if notBlank form.Content then [] else [("content", "This field cannot be blank")]) ++
       (if permittedInt form.Expires [1, 7, 365] then [] else
         [("expires", "This field must equal 1, 7 or 365")])) ∧
    ((validateSnippetCreate form).validator.valid = true ↔
      (validateSnippetCreate form).validator.fieldErrors = []) ∧
    ((validateSnippetCreate form).validator.valid = false →
      snippetCreatePost (some form) ins cache base =
        render cache 422 "create.tmpl"
          { base with form := .snippetCreate (validateSnippetCreate form) }) := by
  refine ⟨?_, ?_, ?_⟩
  · simp only [validateSnippetCreate, Validator.checkField, Validator.addFieldError]
    split_ifs <;> simp
  · simp [Validator.valid, List.isEmpty_iff]
  · intro hv
    simp [snippetCreatePost, hv]

/-- Witness for C5: a submission violating three checks at once is
answered by the 422 re-render. -/
theorem snippet_create_validation_accumulates_all_witness :
    snippetCreatePost (some { Title := "", Content := "", Expires := 3 }) (.ok 1)
        (fun _ => none) {} =
      render (fun _ => none) 422 "create.tmpl"
        { form := .snippetCreate
            (validateSnippetCreate { Title := "", Content := "", Expires := 3 }) } :=
  (snippet_create_validation_accumulates_all
      { Title := "", Content := "", Expires := 3 } (.ok 1) (fun _ => none) {}).2.2
    (by decide)

/-- C6: an invalid snippet-create submission is re-rendered at 422 with
the very record that was decoded, its Title, Content and Expires values
unchanged, and the store is never called on this path. -/
theorem invalid_create_preserves_submission
    (form : snippetCreateForm) (ins : Except String Int)
    (cache : TemplateCache) (base : TemplateData)
    (hv : (validateSnippetCreate form).validator.valid = false) :
    snippetCreatePost (some form) ins cache base =
      render cache 422 "create.tmpl"
        { base with form := .snippetCreate (validateSnippetCreate form) } ∧
    (validateSnippetCreate form).Title = form.Title ∧
    (validateSnippetCreate form).Content = form.Content ∧
    (validateSnippetCreate form).Expires = form.Expires ∧
    ∀ t c e, Effect.storeInsert t c e ∉ snippetCreatePost (some form) ins cache base := by
  have heq : snippetCreatePost (some form) ins cache base =
      render cache 422 "create.tmpl"
        { base with form := .snippetCreate (validateSnippetCreate form) } := by
    simp [snippetCreatePost, hv]
  refine ⟨heq, ?_, ?_, ?_, ?_⟩
  · simp [validateSnippetCreate]
  · simp [validateSnippetCreate]
  · simp [validateSnippetCreate]
  · intro t c e
    rw [heq]
    exact (render_only_writes cache 422 "create.tmpl" _).1 t c e

/-- Witness for C6: the entered content survives the 422 re-render of
an empty-title submission verbatim. -/
theorem invalid_create_preserves_submission_witness :
    (validateSnippetCreate { Title := "", Content := "my content", Expires := 7 }).Content =
      "my content" :=
  (invalid_create_preserves_submission
      { Title := "", Content := "my content", Expires := 7 }
      (.ok 1) (fun _ => none) {} (by decide)).2.2.1

/-- C7: a valid snippet-create submission inserts, puts the success
flash into the session and redirects with 303 to the view page of
exactly the id Insert returned; an Insert error yields a 500 and no
redirect. -/
theorem valid_create_redirects_to_new_snippet
    (form : snippetCreateForm) (cache : TemplateCache) (base : TemplateData)
    (hv : (validateSnippetCreate form).validator.valid = true) :
    (∀ id : Int, snippetCreatePost (some form) (.ok id) cache base =
      [Effect.storeInsert form.Title form.Content form.Expires,
       Effect.sessionPut "flash" "Snippet successfully created!",
       Effect.setHeader "Location" ("/snippet/view/" ++ toString id),
       Effect.writeHeader 303]) ∧
    (∀ msg, snippetCreatePost (some form) (.error msg) cache base =
        Effect.storeInsert form.Title form.Content form.Expires ::
          serverErrorEffects msg ∧
      responseStatus (snippetCreatePost (some form) (.error msg) cache base) = some 500 ∧
      (∀ url, Effect.setHeader "Location" url ∉
        snippetCreatePost (some form) (.error msg) cache base) ∧
      Effect.writeHeader 303 ∉ snippetCreatePost (some form) (.error msg) cache base) := by
  have h1 : (validateSnippetCreate form).Title = form.Title := by
    simp [validateSnippetCreate]
  have h2 : (validateSnippetCreate form).Content = form.Content := by
    simp [validateSnippetCreate]
  have h3 : (validateSnippetCreate form).Expires = form.Expires := by
    simp [validateSnippetCreate]
  constructor
  · intro id
    simp [snippetCreatePost, hv, h1, h2, h3, redirectEffects]
  · intro msg
    have heq : snippetCreatePost (some form) (.error msg) cache base =
        Effect.storeInsert form.Title form.Content form.Expires ::
          serverErrorEffects msg := by
      simp [snippetCreatePost, hv, h1, h2, h3]
    refine ⟨heq, ?_, ?_, ?_⟩
    · rw [heq]
      simp [responseStatus, serverErrorEffects, clientErrorEffects]
    · intro url
      rw [heq]
      simp [serverErrorEffects, clientErrorEffects]
    · rw [heq]
      simp [serverErrorEffects, clientErrorEffects]

/-- Witness for C7: title T, content C, expires 7 with new id 2
redirects to /snippet/view/2. -/
theorem valid_create_redirects_to_new_snippet_witness :
    snippetCreatePost (some { Title := "T", Content := "C", Expires := 7 }) (.ok 2)
        (fun _ => none) {} =
      [Effect.storeInsert "T" "C" 7,
       Effect.sessionPut "flash" "Snippet successfully created!",
       Effect.setHeader "Location" "/snippet/view/2",
       Effect.writeHeader 303] :=
  (valid_create_redirects_to_new_snippet
      { Title := "T", Content := "C", Expires := 7 } (fun _ => none) {} (by decide)).1 2

/-- C10: a view request whose id segment fails to parse or parses below
1 is answered 404 without consulting the store; the store is consulted
only for parsed ids of at least 1. -/
theorem snippet_view_invalid_id_is_404
    (idParam : String) (getR : Int → Except GetError Snippet)
    (cache : TemplateCache) (base : TemplateData) :
    ((atoi idParam = none ∨ ∃ n, atoi idParam = some n ∧ n < 1) →
      snippetView idParam getR cache base = notFoundEffects ∧
      responseStatus (snippetView idParam getR cache base) = some 404 ∧
      ∀ i, Effect.storeGet i ∉ snippetView idParam getR cache base) ∧
    (∀ i, Effect.storeGet i ∈ snippetView idParam getR cache base →
      atoi idParam = some i ∧ 1 ≤ i) := by
  constructor
  · intro h
    have heq : snippetView idParam getR cache base = notFoundEffects := by
      rcases h with h | ⟨n, hn, hlt⟩
      · simp [snippetView, h]
      · simp [snippetView, hn, hlt]
    refine ⟨heq, ?_, ?_⟩
    · rw [heq]
      simp [notFoundEffects, clientErrorEffects, responseStatus]
    · intro i
      rw [heq]
      simp [notFoundEffects, clientErrorEffects]
  · intro i hi
    cases ha : atoi idParam with
    | none =>
      rw [show snippetView idParam getR cache base = notFoundEffects by
        simp [snippetView, ha]] at hi
      simp [notFoundEffects, clientErrorEffects] at hi
    | some n =>
      by_cases hlt : n < 1
      · rw [show snippetView idParam getR cache base = notFoundEffects by
          simp [snippetView, ha, hlt]] at hi
        simp [notFoundEffects, clientErrorEffects] at hi
      · cases hg : getR n with
        | error e =>
          cases e with
          | noRecord =>
            rw [show snippetView idParam getR cache base =
                Effect.storeGet n :: notFoundEffects by
              simp [snippetView, ha, hlt, hg]] at hi
            simp [notFoundEffects, clientErrorEffects] at hi
            subst hi
            exact ⟨rfl, by omega⟩
          | other msg =>
            rw [show snippetView idParam getR cache base =
                Effect.storeGet n :: serverErrorEffects msg by
              simp [snippetView, ha, hlt, hg]] at hi
            simp [serverErrorEffects, clientErrorEffects] at hi
            subst hi
            exact ⟨rfl, by omega⟩
        | ok s =>
          rw [show snippetView idParam getR cache base =
              Effect.storeGet n ::
                render cache 200 "view.tmpl" { base with snippet := some s } by
            simp [snippetView, ha, hlt, hg]] at hi
          rcases List.mem_cons.mp hi with hhead | htail
          · simp only [Effect.storeGet.injEq] at hhead
            subst hhead
            exact ⟨rfl, by omega⟩
          · exact absurd htail
              ((render_only_writes cache 200 "view.tmpl" _).2.1 i)

/-- Witness for C10: the id segment 0 parses but is below 1, so the
response is the 404 effects. -/
theorem snippet_view_invalid_id_is_404_witness :
    snippetView "0" (fun _ => .error .noRecord) (fun _ => none) {} = notFoundEffects :=
  ((snippet_view_invalid_id_is_404 "0" (fun _ => .error .noRecord) (fun _ => none) {}).1
    (Or.inr ⟨0, by decide, by decide⟩)).1

/-- No single effect changes the template cache component of the
application state. -/
lemma applyEffect_preserves_cache (st : AppState) (e : Effect) :
    (applyEffect st e).templateCache = st.templateCache := by
  cases e <;> rfl

/-- Running any effect list leaves the template cache untouched. -/
lemma runEffects_preserves_cache (effs : List Effect) :
    ∀ st : AppState, (runEffects st effs).templateCache = st.templateCache := by
  induction effs with
  | nil => intro st; rfl
  | cons e rest ih =>
    intro st
    show ((e :: rest).foldl applyEffect st).templateCache = st.templateCache
    rw [List.foldl_cons]
    exact (ih (applyEffect st e)).trans (applyEffect_preserves_cache st e)

/-- C9: no request-scoped operation mutates the template cache — the
state after running any request's effects, in particular those of a
render call, carries the identical cache — and a missing page entry is
answered with a 500 rather than by lazily inserting an entry. -/
theorem template_cache_is_request_invariant
    (st : AppState) (status : Nat) (page : String) (data : TemplateData) :
    (∀ effs, (runEffects st effs).templateCache = st.templateCache) ∧
    (runEffects st (render st.templateCache status page data)).templateCache
      = st.templateCache ∧
    (st.templateCache page = none →
      responseStatus (render st.templateCache status page data) = some 500) := by
  refine ⟨fun effs => runEffects_preserves_cache effs st,
          runEffects_preserves_cache _ st, ?_⟩
  intro h
  simp [render, h, responseStatus, serverErrorEffects, clientErrorEffects]

/-- Witness for C9: an empty cache answers a render of view.tmpl with a
500 and is unchanged by the request. -/
theorem template_cache_is_request_invariant_witness :
    responseStatus
        (render ({ templateCache := fun _ => none } : AppState).templateCache
          200 "view.tmpl" {}) = some 500 :=
  (template_cache_is_request_invariant
      { templateCache := fun _ => none } 200 "view.tmpl" {}).2.2 rfl

/-- C2, evaluated at the failing input: a duplicate-email signup whose
fields pass validation gets the 422 duplicate-email response, but the
handler then falls through (the branch lacks a return) and additionally
puts the success flash into the session and issues the 303 redirect to
the login page — contradicting the claim that exactly one terminal
response is written. -/
theorem signup_duplicate_email_falls_through :
    responseStatus dupSignupRun = some 422 ∧
    Effect.writeHeader 422 ∈ dupSignupRun ∧
    Effect.sessionPut "flash" "Your signup was succesful. Please log in" ∈ dupSignupRun ∧
    Effect.setHeader "Location" "/user/login" ∈ dupSignupRun ∧
    Effect.writeHeader 303 ∈ dupSignupRun := by
  decide

/-- When the CSRF token check fails, the fully wrapped dynamic handler
produces exactly the session-wrapped 400 response, no matter what the
terminal handler is. -/
lemma csrf_guard_all (h : Handler) (req : Request)
    (hreq : req.method = "POST") (htok : req.submittedCsrf ≠ some req.sessionCsrf) :
    (sessionLoadAndSave (noSurf (authenticate h))) req =
      { effects := Effect.sessionLoad :: (clientErrorEffects 400 ++ [Effect.sessionCommit]),
        panicMsg := none } ∧
    responseStatus ((sessionLoadAndSave (noSurf (authenticate h))) req).effects = some 400 ∧
    (∀ t c x, Effect.storeInsert t c x ∉
      ((sessionLoadAndSave (noSurf (authenticate h))) req).effects) ∧
    (∀ n m, Effect.userInsert n m ∉
      ((sessionLoadAndSave (noSurf (authenticate h))) req).effects) := by
  have hsafe : safeMethod req.method = false := by rw [hreq]; rfl
  have heq : (sessionLoadAndSave (noSurf (authenticate h))) req =
      { effects := Effect.sessionLoad :: (clientErrorEffects 400 ++ [Effect.sessionCommit]),
        panicMsg := none } := by
    simp [sessionLoadAndSave, noSurf, hsafe, htok]
  refine ⟨heq, ?_, ?_, ?_⟩
  · rw [heq]
    simp [responseStatus, clientErrorEffects]
  · intro t c x
    rw [heq]
    simp [clientErrorEffects]
  · intro n m
    rw [heq]
    simp [clientErrorEffects]

/-- C3: every registered POST route sits behind sessionLoadAndSave,
then the CSRF guard, then authenticate; a POST request whose submitted
token does not match the session-bound secret is answered 400 with the
terminal handler never invoked (the result is a fixed response
independent of the registered handlers) and no store mutation. -/
theorem post_routes_guarded_by_csrf
    (hs : AppHandlers) (e : RouteEntry) (he : e ∈ routes hs) (hm : e.method = "POST")
    (req : Request) (hreq : req.method = "POST")
    (htok : req.submittedCsrf ≠ some req.sessionCsrf) :
    (∃ h, e.handler = sessionLoadAndSave (noSurf (authenticate h))) ∧
    e.handler req =
      { effects := Effect.sessionLoad :: (clientErrorEffects 400 ++ [Effect.sessionCommit]),
        panicMsg := none } ∧
    responseStatus (e.handler req).effects = some 400 ∧
    (∀ t c x, Effect.storeInsert t c x ∉ (e.handler req).effects) ∧
    (∀ n m, Effect.userInsert n m ∉ (e.handler req).effects) := by
  simp only [routes, List.mem_cons, List.not_mem_nil, or_false] at he
  rcases he with rfl | rfl | rfl | rfl | rfl | rfl | rfl | rfl | rfl | rfl | rfl
  · exact absurd hm (by simp)
  · exact absurd hm (by simp)
  · exact absurd hm (by simp)
  · exact absurd hm (by simp)
  · exact absurd hm (by simp)
  · exact ⟨⟨_, rfl⟩, csrf_guard_all _ req hreq htok⟩
  · exact absurd hm (by simp)
  · exact ⟨⟨_, rfl⟩, csrf_guard_all _ req hreq htok⟩
  · exact absurd hm (by simp)
  · exact ⟨⟨_, rfl⟩, csrf_guard_all _ req hreq htok⟩
  · exact ⟨⟨_, rfl⟩, csrf_guard_all _ req hreq htok⟩

/-- Witness for C3: the signup POST route blocks a POST request carrying
no CSRF token with a 400. -/
theorem post_routes_guarded_by_csrf_witness :
    responseStatus
        ((RouteEntry.mk "POST" "/user/signup"
            (dynamicChain.thenH trivialHandlers.userSignupPost)).handler
          csrfMissingReq).effects = some 400 :=
  (post_routes_guarded_by_csrf trivialHandlers
      ⟨"POST", "/user/signup", dynamicChain.thenH trivialHandlers.userSignupPost⟩
      (by simp [routes]) rfl csrfMissingReq rfl (by decide)).2.2.1

/-- Counting distributes over concatenation of effect lists. -/
lemma countEff_append (e : Effect) (a b : List Effect) :
    countEff e (a ++ b) = countEff e a + countEff e b := by
  induction a with
  | nil => simp [countEff]
  | cons x xs ih => simp [countEff, ih]; omega

/-- C4: the composed handler nests first-registered-outermost —
recoverPanic, then logRequest, then secureHeaders, then router
dispatch; dynamic routes nest sessionLoadAndSave, then the CSRF guard,
then authenticate around the terminal handler, protected routes add
requireAuthentication innermost; and for any terminal handler that does
not panic (whatever status it produces), the dynamic chain performs
exactly one session load and one session persist. -/
theorem middleware_first_registered_outermost
    (hs : AppHandlers) (h : Handler) (req : Request) :
    appHandler hs = recoverPanic (logRequest (secureHeaders (dispatch (routes hs)))) ∧
    dynamicChain.thenH h = sessionLoadAndSave (noSurf (authenticate h)) ∧
    protectedChain.thenH h =
      sessionLoadAndSave (noSurf (authenticate (requireAuthentication h))) ∧
    ((∀ r, (h r).panicMsg = none) →
     (∀ r, countEff Effect.sessionLoad (h r).effects = 0 ∧
           countEff Effect.sessionCommit (h r).effects = 0) →
     countEff Effect.sessionLoad ((dynamicChain.thenH h) req).effects = 1 ∧
     countEff Effect.sessionCommit ((dynamicChain.thenH h) req).effects = 1) := by
  refine ⟨rfl, rfl, rfl, ?_⟩
  intro hp hc
  have hauth : ∀ r2, ((authenticate h) r2).panicMsg = none ∧
      countEff Effect.sessionLoad ((authenticate h) r2).effects = 0 ∧
      countEff Effect.sessionCommit ((authenticate h) r2).effects = 0 := by
    intro r2
    obtain ⟨m, p, sub, sc, su, ue, ia⟩ := r2
    cases su with
    | none =>
      simp only [authenticate]
      exact ⟨hp _, (hc _).1, (hc _).2⟩
    | some uid =>
      cases ue with
      | true =>
        simp only [authenticate, if_true]
        exact ⟨hp _, (hc _).1, (hc _).2⟩
      | false =>
        simp only [authenticate, Bool.false_eq_true, if_false]
        refine ⟨hp _, ?_, ?_⟩
        · have hz := (hc ⟨m, p, sub, sc, none, false, ia⟩).1
          simpa [countEff] using hz
        · have hz := (hc ⟨m, p, sub, sc, none, false, ia⟩).2
          simpa [countEff] using hz
  have hns : ∀ r2, ((noSurf (authenticate h)) r2).panicMsg = none ∧
      countEff Effect.sessionLoad ((noSurf (authenticate h)) r2).effects = 0 ∧
      countEff Effect.sessionCommit ((noSurf (authenticate h)) r2).effects = 0 := by
    intro r2
    simp only [noSurf]
    split_ifs
    · exact hauth r2
    · exact hauth r2
    · exact ⟨rfl, by simp [countEff, clientErrorEffects],
        by simp [countEff, clientErrorEffects]⟩
  show countEff Effect.sessionLoad
      ((sessionLoadAndSave (noSurf (authenticate h))) req).effects = 1 ∧
    countEff Effect.sessionCommit
      ((sessionLoadAndSave (noSurf (authenticate h))) req).effects = 1
  obtain ⟨hpn, hl0, hc0⟩ := hns req
  simp only [sessionLoadAndSave, hpn]
  constructor
  · simp [countEff, countEff_append, hl0]
  · simp [countEff, countEff_append, hc0]

/-- Witness for C4: a no-op terminal handler on the dynamic chain sees
exactly one session load and one session persist. -/
theorem middleware_first_registered_outermost_witness :
    countEff Effect.sessionLoad
        ((dynamicChain.thenH (fun _ => ⟨[], none⟩)) csrfMissingReq).effects = 1 ∧
    countEff Effect.sessionCommit
        ((dynamicChain.thenH (fun _ => ⟨[], none⟩)) csrfMissingReq).effects = 1 :=
  (middleware_first_registered_outermost trivialHandlers
      (fun _ => ⟨[], none⟩) csrfMissingReq).2.2.2
    (fun _ => rfl) (fun _ => ⟨rfl, rfl⟩)

end Snippetbox
